import Mathlib

/-!
Verification of the TLS certificate loader (loader.go) from the
go-tls-certificate-loader repository.

The Go source is embedded shallowly:

* File paths, error values and parsed key pairs are opaque identifiers
  (natural numbers); the loader never inspects their contents.
* A modification time is the Go `time.Time` of a stat, represented as the
  number of nanoseconds since the epoch (an integer); `UnixMilli` is floor
  division by 10^6, exactly as Go computes `sec*1000 + nsec/1e6` with
  `0 ≤ nsec < 1e9`.
* The filesystem is a pair of functions giving the result of `os.Stat` on a
  path and of `tls.LoadX509KeyPair` on a pair of paths, each either an error
  or a value.  A single check cycle sees a fixed filesystem.
* Each operation returns, besides its Go return values and the updated
  loader struct, the ordered trace of observable atomic actions it performs
  (file operations, mutex acquire/release, field writes, callback
  invocations), so that ordering and lock-scoping statements of the spec can
  be expressed.  Invoking a nil callback is recorded as no action.
-/

namespace TlsCertLoader

/-- Opaque file path (the loader never inspects path contents). -/
abbrev Path := Nat

/-- Opaque error value, as returned by `os.Stat` or `tls.LoadX509KeyPair`. -/
abbrev Err := Nat

/-- Opaque parsed `tls.Certificate` value (certificate chain + private key). -/
abbrev KeyPair := Nat

/-- Modification time of a file: nanoseconds since the Unix epoch, as held by
a Go `time.Time`. -/
abbrev ModTime := Int

/-- Go `time.Time.UnixMilli`: milliseconds since the epoch.  For a time of
`sec` seconds and `nsec ∈ [0, 1e9)` nanoseconds Go returns
`sec*1000 + nsec/1e6`, which equals floor division of the total nanosecond
count by 10^6. -/
def unixMilli (t : ModTime) : Int := Int.fdiv t 1000000

/-- The filesystem as seen by one operation: result of `os.Stat` (its
`ModTime()`) per path, and result of `tls.LoadX509KeyPair` per pair of
paths. -/
structure FileSystem where
  stat : Path → Except Err ModTime
  loadX509KeyPair : Path → Path → Except Err KeyPair

/-- Configuration of the loader.  The struct declaration lives outside
loader.go; its fields are taken from their uses in loader.go
(`config.CertificatePath`, `config.KeyPath`, `config.CheckReloadPeriod`,
`config.OnReload`, `config.OnError`) and from the spec's configuration
surface.  The two callbacks are functions in Go; here only their presence
(nil or not) is recorded, their invocations appear in the trace. -/
structure TlsCertificateLoaderConfig where
  CertificatePath : Path
  KeyPath : Path
  CheckReloadPeriod : Int
  OnReload : Bool
  OnError : Bool
deriving DecidableEq, Repr

/-- Observable atomic actions of the loader, in program order. -/
inductive Event where
  /-- An `os.Stat` call on a path. -/
  | statFile (path : Path)
  /-- A `tls.LoadX509KeyPair` call (file reads + parsing). -/
  | loadKeyPair (certPath keyPath : Path)
  /-- `mu.Lock()`. -/
  | lockAcquire
  /-- `mu.Unlock()`. -/
  | lockRelease
  /-- The writes `loader.certModTime = ...; loader.keyModTime = ...`. -/
  | setWatermarks (certTime keyTime : ModTime)
  /-- The write `loader.certificate = &certificate` (the reference swap). -/
  | setCertificate (pair : KeyPair)
  /-- The read `return loader.certificate, nil` (the reference copy). -/
  | readCertificate
  /-- Invocation `loader.config.OnError(err)`. -/
  | callOnError (e : Err)
  /-- Invocation `loader.config.OnReload()`. -/
  | callOnReload
deriving DecidableEq, Repr

/-- The `TlsCertificateLoader` struct.  `closeChan` records whether the
channel is non-nil (it carries no other observable data here; the send is
returned by `Close` as a boolean), `certificate` is the published
`*tls.Certificate` reference, nil being `none`. -/
structure TlsCertificateLoader where
  config : TlsCertificateLoaderConfig
  closed : Bool
  closeChan : Bool
  certificate : Option KeyPair
  certModTime : ModTime
  keyModTime : ModTime
deriving DecidableEq, Repr

/-- `NewTlsCertificateLoader`: stats both files, loads the key pair, and on
success builds the loader; the channel is created and the co-routine started
iff `CheckReloadPeriod > 0`.  Returns the Go result (`(nil, err)` on failure,
the loader plus whether the co-routine was started on success) and the trace
of file operations performed. -/
def NewTlsCertificateLoader (config : TlsCertificateLoaderConfig)
    (fs : FileSystem) :
    Except Err (TlsCertificateLoader × Bool) × List Event :=
  match fs.stat config.CertificatePath with
  | .error err => (.error err, [.statFile config.CertificatePath])
  | .ok certModTime =>
    match fs.stat config.KeyPath with
    | .error err =>
      (.error err,
       [.statFile config.CertificatePath, .statFile config.KeyPath])
    | .ok keyModTime =>
      match fs.loadX509KeyPair config.CertificatePath config.KeyPath with
      | .error err =>
        (.error err,
         [.statFile config.CertificatePath, .statFile config.KeyPath,
          .loadKeyPair config.CertificatePath config.KeyPath])
      | .ok certificate =>
        (.ok ({ config := config
                closed := false
                closeChan := decide (config.CheckReloadPeriod > 0)
                certificate := some certificate
                certModTime := certModTime
                keyModTime := keyModTime },
              decide (config.CheckReloadPeriod > 0)),
         [.statFile config.CertificatePath, .statFile config.KeyPath,
          .loadKeyPair config.CertificatePath config.KeyPath])

/-- `IsClosed`: reads the `closed` flag under the mutex. -/
def IsClosed (loader : TlsCertificateLoader) : Bool :=
  loader.closed

/-- `Close`: under the mutex, records whether the loader was already closed
and sets `closed = true`; after unlocking, sends on `closeChan` iff the
loader was not closed before and the channel is non-nil.  Returns the updated
loader and whether the cancellation signal was sent. -/
def Close (loader : TlsCertificateLoader) : TlsCertificateLoader × Bool :=
  let wasClosed := loader.closed
  ({ loader with closed := true }, !wasClosed && loader.closeChan)

/-- The `check` cycle of loader.go: stat both files; on either stat error
invoke the on-error callback (if configured) and return; if both
millisecond-truncated mod times equal the stored watermarks, return; else
reload the key pair; on load error invoke on-error (if configured) and
return; on success write both watermarks, swap the certificate reference
under the mutex, and invoke on-reload (if configured).  Returns the updated
loader and the trace of actions in program order. -/
def check (loader : TlsCertificateLoader) (fs : FileSystem) :
    TlsCertificateLoader × List Event :=
  match fs.stat loader.config.CertificatePath with
  | .error err =>
    (loader,
     [.statFile loader.config.CertificatePath]
       ++ (if loader.config.OnError then [.callOnError err] else []))
  | .ok certModTime =>
    match fs.stat loader.config.KeyPath with
    | .error err =>
      (loader,
       [.statFile loader.config.CertificatePath,
        .statFile loader.config.KeyPath]
         ++ (if loader.config.OnError then [.callOnError err] else []))
    | .ok keyModTime =>
      if unixMilli keyModTime = unixMilli loader.keyModTime ∧
          unixMilli certModTime = unixMilli loader.certModTime then
        (loader,
         [.statFile loader.config.CertificatePath,
          .statFile loader.config.KeyPath])
      else
        match fs.loadX509KeyPair loader.config.CertificatePath
            loader.config.KeyPath with
        | .error err =>
          (loader,
           [.statFile loader.config.CertificatePath,
            .statFile loader.config.KeyPath,
            .loadKeyPair loader.config.CertificatePath loader.config.KeyPath]
             ++ (if loader.config.OnError then [.callOnError err] else []))
        | .ok certificate =>
          ({ loader with
              certModTime := certModTime
              keyModTime := keyModTime
              certificate := some certificate },
           [.statFile loader.config.CertificatePath,
            .statFile loader.config.KeyPath,
            .loadKeyPair loader.config.CertificatePath loader.config.KeyPath,
            .setWatermarks certModTime keyModTime,
            .lockAcquire,
            .setCertificate certificate,
            .lockRelease]
             ++ (if loader.config.OnReload then [.callOnReload] else []))

/-- Opaque stand-in for Go's `*tls.ClientHelloInfo` handshake context (nil
being `none`); `GetCertificate` never inspects it. -/
abbrev ClientHelloInfo := Nat

/-- `GetCertificate`: under the mutex, copies the published certificate
reference and returns it with a nil error, ignoring the handshake context.
Returns the Go pair and the trace. -/
def GetCertificate (loader : TlsCertificateLoader)
    (_info : Option ClientHelloInfo) :
    (Option KeyPair × Option Err) × List Event :=
  ((loader.certificate, none), [.lockAcquire, .readCertificate, .lockRelease])

/-- Calls `Close` a given number of times in sequence, counting how many of
those calls sent the cancellation signal. -/
def closeTimes : Nat → TlsCertificateLoader → TlsCertificateLoader × Nat
  | 0, loader => (loader, 0)
  | n + 1, loader =>
    let r := Close loader
    let rest := closeTimes n r.1
    (rest.1, (if r.2 then 1 else 0) + rest.2)

/-- Whether an action performs file system work (a stat, or the file reads
and parsing of a key-pair load). -/
def isFileOp : Event → Bool
  | .statFile _ => true
  | .loadKeyPair _ _ => true
  | _ => false

/-- Whether an action invokes the on-reload callback. -/
def isCallOnReload : Event → Bool
  | .callOnReload => true
  | _ => false

/-- Whether an action invokes the on-error callback (with any error). -/
def isCallOnError : Event → Bool
  | .callOnError _ => true
  | _ => false

/-- Whether an action invokes a callback at all. -/
def isCallback : Event → Bool
  | .callOnError _ => true
  | .callOnReload => true
  | _ => false

/-- Whether an action is the certificate reference swap. -/
def isSetCertificate : Event → Bool
  | .setCertificate _ => true
  | _ => false

/-- Whether the trace contains a key-pair load (a reload attempt). -/
def attemptsReload (tr : List Event) : Bool :=
  tr.any (fun e => match e with | .loadKeyPair _ _ => true | _ => false)

/-- Number of on-reload callback invocations in a trace. -/
def countOnReload (tr : List Event) : Nat :=
  tr.countP isCallOnReload

/-- Number of on-error callback invocations in a trace (any error). -/
def countOnError (tr : List Event) : Nat :=
  tr.countP isCallOnError

/-- Number of on-error callback invocations with a given error value. -/
def countOnErrorWith (e : Err) (tr : List Event) : Nat :=
  tr.countP (fun ev => match ev with | .callOnError e2 => e2 == e | _ => false)

/-- The sub-sequence of actions performed while the mutex is held, given the
initial locked state: the actions strictly between each `lockAcquire` and its
`lockRelease`. -/
def eventsWhileLocked : List Event → Bool → List Event
  | [], _ => []
  | .lockAcquire :: rest, _ => eventsWhileLocked rest true
  | .lockRelease :: rest, _ => eventsWhileLocked rest false
  | e :: rest, locked =>
    (if locked then [e] else []) ++ eventsWhileLocked rest locked

/-- A loader with the same state but the two callbacks configured or not as
given (used to state that callback presence never changes the state
outcome of a cycle). -/
def withCallbacks (loader : TlsCertificateLoader)
    (onReload onError : Bool) : TlsCertificateLoader :=
  { loader with
      config := { loader.config with OnReload := onReload, OnError := onError } }

/-- States of the loader reachable from a successful construction by any
sequence of `check` cycles and `Close` calls. -/
inductive Reachable : TlsCertificateLoader → Prop where
  | init (config : TlsCertificateLoaderConfig) (fs : FileSystem)
      (loader : TlsCertificateLoader) (started : Bool)
      (h : (NewTlsCertificateLoader config fs).1 = .ok (loader, started)) :
      Reachable loader
  | step_check (loader : TlsCertificateLoader) (fs : FileSystem)
      (h : Reachable loader) : Reachable (check loader fs).1
  | step_close (loader : TlsCertificateLoader)
      (h : Reachable loader) : Reachable (Close loader).1

/-! Concrete sample inputs, used to evaluate the definitions at specific
points. -/

/-- A sample configuration with a positive reload period and both callbacks
configured. -/
def sampleConfig : TlsCertificateLoaderConfig :=
  { CertificatePath := 0
    KeyPath := 1
    CheckReloadPeriod := 5
    OnReload := true
    OnError := true }

/-- A sample filesystem where both stats succeed with mod time 10^6 ns and
the key pair loads as pair 7. -/
def sampleFs : FileSystem :=
  { stat := fun _ => .ok 1000000
    loadX509KeyPair := fun _ _ => .ok 7 }

/-- The loader produced by constructing from `sampleConfig` over
`sampleFs`. -/
def sampleLoader : TlsCertificateLoader :=
  { config := sampleConfig
    closed := false
    closeChan := true
    certificate := some 7
    certModTime := 1000000
    keyModTime := 1000000 }

/-- A filesystem where every stat fails with error 3. -/
def failFs : FileSystem :=
  { stat := fun _ => .error 3
    loadX509KeyPair := fun _ _ => .error 4 }

/-- A filesystem where both files have a newer mod time (2·10^6 ns) and the
key pair loads as pair 8. -/
def changedFs : FileSystem :=
  { stat := fun _ => .ok 2000000
    loadX509KeyPair := fun _ _ => .ok 8 }

/-- A filesystem where both files have a newer mod time but the key pair
fails to load with error 4. -/
def badLoadFs : FileSystem :=
  { stat := fun _ => .ok 2000000
    loadX509KeyPair := fun _ _ => .error 4 }

/-! Helper lemmas. -/

/-- Inversion of a successful construction: both stats and the load
succeeded, and the loader fields are exactly the observed values. -/
theorem new_ok_inv (config : TlsCertificateLoaderConfig) (fs : FileSystem)
    (loader : TlsCertificateLoader) (started : Bool)
    (h : (NewTlsCertificateLoader config fs).1 = .ok (loader, started)) :
    ∃ c k p, fs.stat config.CertificatePath = .ok c ∧
      fs.stat config.KeyPath = .ok k ∧
      fs.loadX509KeyPair config.CertificatePath config.KeyPath = .ok p ∧
      loader = { config := config
                 closed := false
                 closeChan := decide (config.CheckReloadPeriod > 0)
                 certificate := some p
                 certModTime := c
                 keyModTime := k } ∧
      started = decide (config.CheckReloadPeriod > 0) := by
  cases h1 : fs.stat config.CertificatePath with
  | error e => simp [NewTlsCertificateLoader, h1] at h
  | ok c =>
    cases h2 : fs.stat config.KeyPath with
    | error e => simp [NewTlsCertificateLoader, h1, h2] at h
    | ok k =>
      cases h3 : fs.loadX509KeyPair config.CertificatePath config.KeyPath with
      | error e => simp [NewTlsCertificateLoader, h1, h2, h3] at h
      | ok p =>
        simp [NewTlsCertificateLoader, h1, h2, h3] at h
        exact ⟨c, k, p, rfl, rfl, rfl, h.1.symm, h.2.symm⟩

/-- The published certificate reference after a check cycle is either the
old reference unchanged, or a freshly loaded (non-nil) pair. -/
theorem check_certificate_cases (loader : TlsCertificateLoader)
    (fs : FileSystem) :
    (check loader fs).1.certificate = loader.certificate ∨
    ∃ p, (check loader fs).1.certificate = some p := by
  cases h1 : fs.stat loader.config.CertificatePath with
  | error e => left; simp [check, h1]
  | ok c =>
    cases h2 : fs.stat loader.config.KeyPath with
    | error e => left; simp [check, h1, h2]
    | ok k =>
      by_cases hch : unixMilli k = unixMilli loader.keyModTime ∧
          unixMilli c = unixMilli loader.certModTime
      · left; simp [check, h1, h2, hch]
      · cases h3 : fs.loadX509KeyPair loader.config.CertificatePath
            loader.config.KeyPath with
        | error e => left; simp [check, h1, h2, hch, h3]
        | ok p => right; exact ⟨p, by simp [check, h1, h2, hch, h3]⟩

/-- Once closed, further `Close` calls never send the cancellation
signal. -/
theorem closeTimes_closed (n : Nat) :
    ∀ loader : TlsCertificateLoader, loader.closed = true →
      (closeTimes n loader).2 = 0 := by
  induction n with
  | zero => intro loader _; rfl
  | succ n ih =>
    intro loader h
    simpa [closeTimes, Close, h] using ih { loader with closed := true } rfl

/-! Claim theorems. -/

/-- C1: a failing check cycle (stat error on either file, or load error)
leaves the loader state — published KeyPair reference and both stored
watermarks — exactly as before, invokes the on-error callback with the error
exactly when one is configured, and never invokes the on-reload callback. -/
theorem check_failure_preserves_state (loader : TlsCertificateLoader)
    (fs : FileSystem) (e : Err)
    (h : fs.stat loader.config.CertificatePath = .error e ∨
      (∃ c, fs.stat loader.config.CertificatePath = .ok c ∧
        fs.stat loader.config.KeyPath = .error e) ∨
      (∃ c k, fs.stat loader.config.CertificatePath = .ok c ∧
        fs.stat loader.config.KeyPath = .ok k ∧
        ¬(unixMilli k = unixMilli loader.keyModTime ∧
          unixMilli c = unixMilli loader.certModTime) ∧
        fs.loadX509KeyPair loader.config.CertificatePath
          loader.config.KeyPath = .error e)) :
    (check loader fs).1 = loader ∧
    countOnErrorWith e (check loader fs).2 =
      (if loader.config.OnError then 1 else 0) ∧
    countOnReload (check loader fs).2 = 0 := by
  rcases h with h1 | ⟨c, h1, h2⟩ | ⟨c, k, h1, h2, hch, h3⟩
  · cases hOE : loader.config.OnError <;>
      simp [check, h1, hOE, countOnErrorWith, countOnReload, isCallOnReload]
  · cases hOE : loader.config.OnError <;>
      simp [check, h1, h2, hOE, countOnErrorWith, countOnReload,
        isCallOnReload]
  · cases hOE : loader.config.OnError <;>
      simp [check, h1, h2, hch, h3, hOE, countOnErrorWith, countOnReload,
        isCallOnReload]

/-- C1 witness: a cycle over a filesystem whose stats fail with error 3
keeps the sample loader intact and reports the error once. -/
theorem check_failure_preserves_state_witness :
    (check sampleLoader failFs).1 = sampleLoader ∧
    countOnErrorWith 3 (check sampleLoader failFs).2 =
      (if sampleLoader.config.OnError then 1 else 0) ∧
    countOnReload (check sampleLoader failFs).2 = 0 :=
  check_failure_preserves_state sampleLoader failFs 3 (Or.inl rfl)

/-- C2: a check cycle that detects a change and loads successfully commits
both watermarks to the mod times observed by that cycle's stats, swaps the
published reference to the newly parsed pair, and invokes on-reload exactly
once (when configured); in the trace the watermark commit precedes the swap,
which precedes the on-reload notification. -/
theorem check_success_order (loader : TlsCertificateLoader)
    (fs : FileSystem) (c k : ModTime) (p : KeyPair)
    (hc : fs.stat loader.config.CertificatePath = .ok c)
    (hk : fs.stat loader.config.KeyPath = .ok k)
    (hch : ¬(unixMilli k = unixMilli loader.keyModTime ∧
      unixMilli c = unixMilli loader.certModTime))
    (hp : fs.loadX509KeyPair loader.config.CertificatePath
      loader.config.KeyPath = .ok p) :
    (check loader fs).1 =
      { loader with certModTime := c, keyModTime := k,
                    certificate := some p } ∧
    countOnReload (check loader fs).2 =
      (if loader.config.OnReload then 1 else 0) ∧
    ∃ t1 t2 t3 t4, (check loader fs).2 =
      t1 ++ [Event.setWatermarks c k] ++ t2 ++ [Event.setCertificate p]
        ++ t3 ++
        (if loader.config.OnReload then Event.callOnReload :: t4 else []) := by
  refine ⟨by simp [check, hc, hk, hch, hp], ?_, ?_⟩
  · cases hOR : loader.config.OnReload <;>
      simp [check, hc, hk, hch, hp, hOR, countOnReload, isCallOnReload]
  · refine ⟨[Event.statFile loader.config.CertificatePath,
      Event.statFile loader.config.KeyPath,
      Event.loadKeyPair loader.config.CertificatePath loader.config.KeyPath],
      [Event.lockAcquire], [Event.lockRelease], [], ?_⟩
    cases hOR : loader.config.OnReload <;>
      simp [check, hc, hk, hch, hp, hOR]

/-- C2 witness: over a filesystem with newer mod times and a loadable pair,
the cycle on the sample loader commits the new watermarks, swaps to pair 8,
and notifies once, in order. -/
theorem check_success_order_witness :
    (check sampleLoader changedFs).1 =
      { sampleLoader with certModTime := 2000000, keyModTime := 2000000,
                          certificate := some 8 } ∧
    countOnReload (check sampleLoader changedFs).2 =
      (if sampleLoader.config.OnReload then 1 else 0) ∧
    ∃ t1 t2 t3 t4, (check sampleLoader changedFs).2 =
      t1 ++ [Event.setWatermarks 2000000 2000000] ++ t2
        ++ [Event.setCertificate 8] ++ t3 ++
        (if sampleLoader.config.OnReload then Event.callOnReload :: t4
         else []) :=
  check_success_order sampleLoader changedFs 2000000 2000000 8 rfl rfl
    (by decide) rfl

/-- C3: when both stats succeed, the cycle attempts a reload iff at least
one millisecond-truncated mod time differs from its stored watermark; when
both match, the cycle invokes neither callback and returns the loader state
(in particular the published reference) identically. -/
theorem check_unchanged_noop (loader : TlsCertificateLoader)
    (fs : FileSystem) (c k : ModTime)
    (hc : fs.stat loader.config.CertificatePath = .ok c)
    (hk : fs.stat loader.config.KeyPath = .ok k) :
    (attemptsReload (check loader fs).2 = true ↔
      ¬(unixMilli k = unixMilli loader.keyModTime ∧
        unixMilli c = unixMilli loader.certModTime)) ∧
    ((unixMilli k = unixMilli loader.keyModTime ∧
      unixMilli c = unixMilli loader.certModTime) →
      (check loader fs).1 = loader ∧
      countOnError (check loader fs).2 = 0 ∧
      countOnReload (check loader fs).2 = 0) := by
  by_cases hch : unixMilli k = unixMilli loader.keyModTime ∧
      unixMilli c = unixMilli loader.certModTime
  · refine ⟨?_, fun _ => ?_⟩
    · simp [check, hc, hk, hch, attemptsReload]
    · simp [check, hc, hk, hch, countOnError, countOnReload,
        isCallOnError, isCallOnReload]
  · refine ⟨?_, fun hh => absurd hh hch⟩
    cases h3 : fs.loadX509KeyPair loader.config.CertificatePath
        loader.config.KeyPath with
    | error e =>
      cases hOE : loader.config.OnError <;>
        simp [check, hc, hk, hch, h3, hOE, attemptsReload]
    | ok p =>
      cases hOR : loader.config.OnReload <;>
        simp [check, hc, hk, hch, h3, hOR, attemptsReload]

/-- C3 witness: over a filesystem whose mod times equal the stored
watermarks, the cycle on the sample loader attempts no reload, invokes no
callback, and leaves the state identical. -/
theorem check_unchanged_noop_witness :
    (attemptsReload (check sampleLoader sampleFs).2 = true ↔
      ¬(unixMilli 1000000 = unixMilli sampleLoader.keyModTime ∧
        unixMilli 1000000 = unixMilli sampleLoader.certModTime)) ∧
    ((unixMilli 1000000 = unixMilli sampleLoader.keyModTime ∧
      unixMilli 1000000 = unixMilli sampleLoader.certModTime) →
      (check sampleLoader sampleFs).1 = sampleLoader ∧
      countOnError (check sampleLoader sampleFs).2 = 0 ∧
      countOnReload (check sampleLoader sampleFs).2 = 0) :=
  check_unchanged_noop sampleLoader sampleFs 1000000 1000000 rfl rfl

/-- C4: construction fails (returning the error synchronously, with no
loader and no callback invocation) whenever either stat or the initial load
fails; on success the loader publishes the parsed pair, stores the observed
mod times as watermarks, starts the background task iff the configured
period is strictly positive, and construction never invokes a callback. -/
theorem newLoader_spec (config : TlsCertificateLoaderConfig)
    (fs : FileSystem) :
    (∀ e, fs.stat config.CertificatePath = .error e →
      (NewTlsCertificateLoader config fs).1 = .error e) ∧
    (∀ c e, fs.stat config.CertificatePath = .ok c →
      fs.stat config.KeyPath = .error e →
      (NewTlsCertificateLoader config fs).1 = .error e) ∧
    (∀ c k e, fs.stat config.CertificatePath = .ok c →
      fs.stat config.KeyPath = .ok k →
      fs.loadX509KeyPair config.CertificatePath config.KeyPath = .error e →
      (NewTlsCertificateLoader config fs).1 = .error e) ∧
    (∀ c k p, fs.stat config.CertificatePath = .ok c →
      fs.stat config.KeyPath = .ok k →
      fs.loadX509KeyPair config.CertificatePath config.KeyPath = .ok p →
      (NewTlsCertificateLoader config fs).1 =
        .ok ({ config := config
               closed := false
               closeChan := decide (config.CheckReloadPeriod > 0)
               certificate := some p
               certModTime := c
               keyModTime := k },
             decide (config.CheckReloadPeriod > 0))) ∧
    (NewTlsCertificateLoader config fs).2.countP isCallback = 0 := by
  refine ⟨fun e h1 => ?_, fun c e h1 h2 => ?_, fun c k e h1 h2 h3 => ?_,
    fun c k p h1 h2 h3 => ?_, ?_⟩
  · simp [NewTlsCertificateLoader, h1]
  · simp [NewTlsCertificateLoader, h1, h2]
  · simp [NewTlsCertificateLoader, h1, h2, h3]
  · simp [NewTlsCertificateLoader, h1, h2, h3]
  · cases h1 : fs.stat config.CertificatePath with
    | error e => simp [NewTlsCertificateLoader, h1, isCallback]
    | ok c =>
      cases h2 : fs.stat config.KeyPath with
      | error e => simp [NewTlsCertificateLoader, h1, h2, isCallback]
      | ok k =>
        cases h3 : fs.loadX509KeyPair config.CertificatePath
            config.KeyPath with
        | error e => simp [NewTlsCertificateLoader, h1, h2, h3, isCallback]
        | ok p => simp [NewTlsCertificateLoader, h1, h2, h3, isCallback]

/-- C4 witness: over the sample filesystem, construction from the sample
configuration succeeds with the sample loader, starting the background task
(period 5 > 0). -/
theorem newLoader_spec_witness :
    sampleFs.stat sampleConfig.CertificatePath = .ok 1000000 ∧
    (NewTlsCertificateLoader sampleConfig sampleFs).1 =
      .ok (sampleLoader, true) := by
  have h := (newLoader_spec sampleConfig sampleFs).2.2.2.1 1000000 1000000 7
    rfl rfl rfl
  exact ⟨rfl, h⟩

/-- C5: every loader state reachable after successful construction (through
any sequence of check cycles and Close calls) holds a non-nil published
KeyPair, and GetCertificate returns exactly that published reference with a
nil error, for any (ignored) handshake-context argument. -/
theorem reachable_getCertificate (loader : TlsCertificateLoader)
    (h : Reachable loader) :
    loader.certificate.isSome = true ∧
    ∀ info, (GetCertificate loader info).1 = (loader.certificate, none) := by
  refine ⟨?_, fun info => rfl⟩
  induction h with
  | init config fs loader started h0 =>
    obtain ⟨c, k, p, _, _, _, hl, _⟩ := new_ok_inv config fs loader started h0
    simp [hl]
  | step_check loader fs h ih =>
    rcases check_certificate_cases loader fs with hc | ⟨p, hc⟩
    · rw [hc]; exact ih
    · simp [hc]
  | step_close loader h ih => simpa [Close] using ih

/-- C5 witness: the sample loader is reachable (it is the result of
construction over the sample filesystem); it publishes a non-nil pair and
GetCertificate returns it with a nil error. -/
theorem reachable_getCertificate_witness :
    sampleLoader.certificate.isSome = true ∧
    (GetCertificate sampleLoader none).1 = (sampleLoader.certificate, none) := by
  have h := reachable_getCertificate sampleLoader
    (Reachable.init sampleConfig sampleFs sampleLoader true rfl)
  exact ⟨h.1, h.2 none⟩

/-- C6: IsClosed reports the closed flag; any Close leaves the loader
closed; the signal is sent iff the loader was not yet closed and the channel
exists, so a second Close is a no-op that never sends; across any number of
Close calls at most one signal is sent; and a freshly constructed loader is
not closed. -/
theorem close_transitions_once (loader : TlsCertificateLoader) (n : Nat)
    (config : TlsCertificateLoaderConfig) (fs : FileSystem)
    (l0 : TlsCertificateLoader) (b : Bool)
    (h0 : (NewTlsCertificateLoader config fs).1 = .ok (l0, b)) :
    IsClosed loader = loader.closed ∧
    (Close loader).1.closed = true ∧
    IsClosed (Close loader).1 = true ∧
    (Close loader).2 = (!loader.closed && loader.closeChan) ∧
    (Close (Close loader).1).1 = (Close loader).1 ∧
    (Close (Close loader).1).2 = false ∧
    (closeTimes n loader).2 ≤ 1 ∧
    IsClosed l0 = false := by
  refine ⟨rfl, rfl, rfl, rfl, rfl, by simp [Close], ?_, ?_⟩
  · cases n with
    | zero => exact Nat.zero_le 1
    | succ n =>
      have h2 : (closeTimes n (Close loader).1).2 = 0 :=
        closeTimes_closed n (Close loader).1 rfl
      simp [closeTimes, h2]
      split <;> simp
  · obtain ⟨c, k, p, _, _, _, hl, _⟩ := new_ok_inv config fs l0 b h0
    simp [IsClosed, hl]

/-- C6 witness: instantiated on the sample loader with three Close calls and
the sample construction. -/
theorem close_transitions_once_witness :
    IsClosed sampleLoader = sampleLoader.closed ∧
    (Close sampleLoader).1.closed = true ∧
    IsClosed (Close sampleLoader).1 = true ∧
    (Close sampleLoader).2 =
      (!sampleLoader.closed && sampleLoader.closeChan) ∧
    (Close (Close sampleLoader).1).1 = (Close sampleLoader).1 ∧
    (Close (Close sampleLoader).1).2 = false ∧
    (closeTimes 3 sampleLoader).2 ≤ 1 ∧
    IsClosed sampleLoader = false :=
  close_transitions_once sampleLoader 3 sampleConfig sampleFs sampleLoader
    true rfl

/-- C7: the mutex is never held across file stats, file reads or key-pair
parsing: in a check cycle the only actions inside the critical section are
the certificate reference swap (never a file operation), and in
GetCertificate the critical section is exactly the reference copy — so a
reader is never blocked by reload I/O. -/
theorem lock_scope_minimal (loader : TlsCertificateLoader) (fs : FileSystem)
    (info : Option ClientHelloInfo) :
    (eventsWhileLocked (check loader fs).2 false).all isSetCertificate =
      true ∧
    (eventsWhileLocked (check loader fs).2 false).all
      (fun e => !isFileOp e) = true ∧
    eventsWhileLocked (GetCertificate loader info).2 false =
      [Event.readCertificate] := by
  refine ⟨?_, ?_, rfl⟩ <;>
  · cases h1 : fs.stat loader.config.CertificatePath with
    | error e =>
      cases hOE : loader.config.OnError <;>
        simp [check, h1, hOE, eventsWhileLocked, isSetCertificate, isFileOp]
    | ok c =>
      cases h2 : fs.stat loader.config.KeyPath with
      | error e =>
        cases hOE : loader.config.OnError <;>
          simp [check, h1, h2, hOE, eventsWhileLocked, isSetCertificate,
            isFileOp]
      | ok k =>
        by_cases hch : unixMilli k = unixMilli loader.keyModTime ∧
            unixMilli c = unixMilli loader.certModTime
        · simp [check, h1, h2, hch, eventsWhileLocked, isSetCertificate,
            isFileOp]
        · cases h3 : fs.loadX509KeyPair loader.config.CertificatePath
              loader.config.KeyPath with
          | error e =>
            cases hOE : loader.config.OnError <;>
              simp [check, h1, h2, hch, h3, hOE, eventsWhileLocked,
                isSetCertificate, isFileOp]
          | ok p =>
            cases hOR : loader.config.OnReload <;>
              simp [check, h1, h2, hch, h3, hOR, eventsWhileLocked,
                isSetCertificate, isFileOp]

/-- C8: an absent callback only suppresses its own notification: with
on-error nil no cycle invokes on-error, with on-reload nil no cycle invokes
on-reload, and the state outcome of a cycle does not depend on which
callbacks are configured. -/
theorem missing_callback_skipped (loader : TlsCertificateLoader)
    (fs : FileSystem) :
    (loader.config.OnError = false →
      countOnError (check loader fs).2 = 0) ∧
    (loader.config.OnReload = false →
      countOnReload (check loader fs).2 = 0) ∧
    ∀ r e, (check (withCallbacks loader r e) fs).1 =
      withCallbacks (check loader fs).1 r e := by
  refine ⟨fun hOE => ?_, fun hOR => ?_, fun r e => ?_⟩ <;>
  · cases h1 : fs.stat loader.config.CertificatePath with
    | error err =>
      simp [check, h1, withCallbacks, countOnError, countOnReload,
        isCallOnError, isCallOnReload, *]
    | ok c =>
      cases h2 : fs.stat loader.config.KeyPath with
      | error err =>
        simp [check, h1, h2, withCallbacks, countOnError, countOnReload,
          isCallOnError, isCallOnReload, *]
      | ok k =>
        by_cases hch : unixMilli k = unixMilli loader.keyModTime ∧
            unixMilli c = unixMilli loader.certModTime
        · simp [check, h1, h2, hch, withCallbacks, countOnError,
            countOnReload, isCallOnError, isCallOnReload]
        · cases h3 : fs.loadX509KeyPair loader.config.CertificatePath
              loader.config.KeyPath with
          | error err =>
            simp [check, h1, h2, hch, h3, withCallbacks, countOnError,
              countOnReload, isCallOnError, isCallOnReload, *]
          | ok p =>
            simp [check, h1, h2, hch, h3, withCallbacks, countOnError,
              countOnReload, isCallOnError, isCallOnReload, *]

/-- A sample loader with neither callback configured. -/
def quietLoader : TlsCertificateLoader :=
  { sampleLoader with
      config := { sampleConfig with OnReload := false, OnError := false } }

/-- C8 witness: on a loader with no callbacks, a failing cycle invokes
nothing, and reinstating the callbacks does not change the state outcome. -/
theorem missing_callback_skipped_witness :
    countOnError (check quietLoader failFs).2 = 0 ∧
    countOnReload (check quietLoader failFs).2 = 0 ∧
    (check (withCallbacks quietLoader true true) failFs).1 =
      withCallbacks (check quietLoader failFs).1 true true :=
  ⟨(missing_callback_skipped quietLoader failFs).1 rfl,
   (missing_callback_skipped quietLoader failFs).2.1 rfl,
   (missing_callback_skipped quietLoader failFs).2.2 true true⟩

/-- C9: a loader constructed with a non-positive period has no cancellation
channel and no background task; Close on it still marks it closed, sends no
signal, and IsClosed then reports true. -/
theorem close_single_shot (config : TlsCertificateLoaderConfig)
    (fs : FileSystem) (loader : TlsCertificateLoader) (started : Bool)
    (h : (NewTlsCertificateLoader config fs).1 = .ok (loader, started))
    (hp : config.CheckReloadPeriod ≤ 0) :
    loader.closeChan = false ∧
    started = false ∧
    (Close loader).2 = false ∧
    (Close loader).1.closed = true ∧
    IsClosed (Close loader).1 = true := by
  obtain ⟨c, k, p, _, _, _, hl, hb⟩ := new_ok_inv config fs loader started h
  have hnp : ¬config.CheckReloadPeriod > 0 := not_lt.mpr hp
  refine ⟨?_, ?_, ?_, rfl, rfl⟩
  · simp [hl, hnp]
  · simp [hb, hnp]
  · simp [Close, hl, hnp]

/-- A sample configuration with the reload period set to zero (single-shot
mode). -/
def singleShotConfig : TlsCertificateLoaderConfig :=
  { sampleConfig with CheckReloadPeriod := 0 }

/-- The loader produced by constructing from `singleShotConfig` over the
sample filesystem: no channel is created. -/
def singleShotLoader : TlsCertificateLoader :=
  { config := singleShotConfig
    closed := false
    closeChan := false
    certificate := some 7
    certModTime := 1000000
    keyModTime := 1000000 }

/-- C9 witness: construction with period 0 over the sample filesystem yields
the single-shot loader; Close on it sends nothing and closes it. -/
theorem close_single_shot_witness :
    singleShotLoader.closeChan = false ∧
    false = false ∧
    (Close singleShotLoader).2 = false ∧
    (Close singleShotLoader).1.closed = true ∧
    IsClosed (Close singleShotLoader).1 = true :=
  close_single_shot singleShotConfig sampleFs singleShotLoader false rfl
    (by decide)

/-- C10: Close changes no field but the closed flag: the published
reference, both watermarks, the configuration and the channel are untouched,
and GetCertificate after Close returns exactly what it returned before. -/
theorem close_frame (loader : TlsCertificateLoader)
    (info : Option ClientHelloInfo) :
    (Close loader).1.certificate = loader.certificate ∧
    (Close loader).1.certModTime = loader.certModTime ∧
    (Close loader).1.keyModTime = loader.keyModTime ∧
    (Close loader).1.config = loader.config ∧
    (Close loader).1.closeChan = loader.closeChan ∧
    GetCertificate (Close loader).1 info = GetCertificate loader info :=
  ⟨rfl, rfl, rfl, rfl, rfl, rfl⟩

end TlsCertLoader
